import Mathlib

/-!
Verification of the neXus network-crawl / pathway-ranking backend.

This file shallowly embeds the parts of the Python sources that the
checked properties speak about:

* `src/backend/nexus/routes/influence_pathways.py` — bridge finding
  and multi-factor bridge scoring (`analyze_influence_pathways`,
  `calculate_embedding_similarity`, `calculate_influence_score`,
  `calculate_engagement_quality`);
* `src/backend/nexus/services/twitter_client.py` — page-walking
  fetchers (`get_all_following`, `get_all_followers`,
  `get_user_tweets_batch`, `get_user_posts_text`);
* `src/backend/nexus/services/scraper.py` — the `add_to_db` upsert of
  profiles and of a user's mutual-id ConnectionSet;
* `src/backend/nexus/routes/generate_rag.py`,
  `src/backend/nexus/services/embeddings.py`,
  `src/backend/nexus/routes/embeddings.py` — every write path that
  touches a profile's (summary, embedding) pair;
* `src/backend/nexus/utils/rate_limiter.py` — the token bucket.

Python floats are modelled as `ℚ` (the claims under check are exact
arithmetic identities and inequalities, not rounding statements).  The
two transcendental library calls, `np.log10` and `np.linalg.norm`'s
square root, are modelled as explicit function parameters (`log10`,
`sqrt`); theorems that depend on properties of the square root assume
them only at the points where the code applies it, so that every
hypothesis is satisfiable by a concrete rational-valued function.
-/

namespace Nexus

/-! ## Data model (db/schema.py `XProfile` row, plus the supabase-side
`summary`/`embedding` columns used by the RAG pipeline) -/

/-- A row of the `x_profiles` table.  Counts are modelled as `ℚ`
(Python ints embedded in the float arithmetic of the scorer); the
timestamp columns irrelevant to the claims are represented by
`last_updated_at` alone. -/
structure XProfileRow where
  x_user_id : String
  username : String
  name : Option String
  bio : Option String
  location : Option String
  profile_image_url : Option String
  verified : Bool
  followers_count : ℚ
  following_count : ℚ
  tweet_count : ℚ
  listed_count : ℚ
  is_protected : Bool
  last_updated_at : ℚ
  summary : Option String
  embedding : Option (List ℚ)
deriving DecidableEq

/-- Parsed profile payload produced by `TwitterClient._parse_user`
(models/x_profile.py `XProfileCreate`). -/
structure XProfileCreate where
  x_user_id : String
  username : String
  name : Option String
  bio : Option String
  location : Option String
  profile_image_url : Option String
  verified : Bool
  followers_count : ℚ
  following_count : ℚ
  tweet_count : ℚ
  listed_count : ℚ
  is_protected : Bool
  account_created_at : Option ℚ
deriving DecidableEq

/-- Parsed tweet payload produced by `TwitterClient._parse_tweet`
(models/x_tweet.py `XTweetCreate`); only the fields the checked
functions read are kept. -/
structure XTweetCreate where
  tweet_id : String
  author_id : String
  content : String
deriving DecidableEq

/-! ## Pathway ranker (routes/influence_pathways.py) -/

/-- Sum of pairwise products of two embedding vectors: `np.dot`. -/
def dotP : List ℚ → List ℚ → ℚ
  | a :: as_, b :: bs => a * b + dotP as_ bs
  | _, _ => 0

/-- Sum of squares of a vector; `np.linalg.norm v` is `sqrt (sumSq v)`. -/
def sumSq : List ℚ → ℚ
  | [] => 0
  | a :: as_ => a * a + sumSq as_

/-- `calculate_embedding_similarity` (influence_pathways.py:51-66).
`sqrt` stands for the real square root used by `np.linalg.norm`. -/
def calculate_embedding_similarity (sqrt : ℚ → ℚ) (embedding1 embedding2 : List ℚ) : ℚ :=
  if embedding1.isEmpty || embedding2.isEmpty then 0
  else if sqrt (sumSq embedding1) = 0 ∨ sqrt (sumSq embedding2) = 0 then 0
  else dotP embedding1 embedding2 / (sqrt (sumSq embedding1) * sqrt (sumSq embedding2))

/-- `calculate_influence_score` (influence_pathways.py:69-81).
`log10` stands for `np.log10`. -/
def calculate_influence_score (log10 : ℚ → ℚ) (profile : XProfileRow) : ℚ :=
  let follower_score := min 100 (log10 (profile.followers_count + 10) / 6 * 100)
  if profile.verified then min 100 (follower_score * 1.2) else follower_score

/-- `calculate_engagement_quality` (influence_pathways.py:84-107). -/
def calculate_engagement_quality (log10 : ℚ → ℚ) (profile : XProfileRow) : ℚ :=
  let fratio_score :=
    if 0 < profile.followers_count then
      let fratio := profile.following_count / profile.followers_count
      if fratio < 2 then 100 * (1 - |fratio - 1|) else 30
    else 50
  let activity_score := min 100 (log10 (profile.tweet_count + 10) / 5 * 100)
  if profile.is_protected then 0
  else fratio_score * 0.4 + activity_score * 0.6

/-- Python truthiness of an optional embedding column: `None` and the
empty list are falsy. -/
def embTruthy : Option (List ℚ) → Bool
  | none => false
  | some l => !l.isEmpty

/-- The `topic_alignment` component (influence_pathways.py:211-215):
similarity times 100 when both embeddings are truthy, else the neutral
default 50. -/
def topicAlignment (sqrt : ℚ → ℚ) (bridgeEmb targetEmb : Option (List ℚ)) : ℚ :=
  if embTruthy bridgeEmb && embTruthy targetEmb then
    calculate_embedding_similarity sqrt (bridgeEmb.getD []) (targetEmb.getD []) * 100
  else 50

/-- The numeric fields of the `BridgeScore` response model
(influence_pathways.py:22-39); the copied-through display strings are
not modelled. -/
structure BridgeScore where
  bridge_user_id : String
  overall_score : ℚ
  success_probability : ℚ
  relationship_strength_your_side : ℚ
  relationship_strength_their_side : ℚ
  topic_alignment : ℚ
  influence_score : ℚ
  engagement_quality : ℚ
deriving DecidableEq

/-- The per-bridge scoring block of `analyze_influence_pathways`
(influence_pathways.py:202-279). -/
def score_bridge (log10 sqrt : ℚ → ℚ) (target_embedding : Option (List ℚ))
    (bridge_profile : XProfileRow) : BridgeScore :=
  let topic_alignment := topicAlignment sqrt bridge_profile.embedding target_embedding
  let your_relationship := min 100 (bridge_profile.followers_count / 1000 * 10)
  let bridge_relationship := topic_alignment
  let influence := calculate_influence_score log10 bridge_profile
  let engagement := calculate_engagement_quality log10 bridge_profile
  let overall_score :=
    topic_alignment * 0.30 +
    bridge_relationship * 0.25 +
    influence * 0.20 +
    engagement * 0.15 +
    your_relationship * 0.10
  let success_probability := min 95 (overall_score * 0.85)
  { bridge_user_id := bridge_profile.x_user_id
    overall_score := overall_score
    success_probability := success_probability
    relationship_strength_your_side := your_relationship
    relationship_strength_their_side := bridge_relationship
    topic_alignment := topic_alignment
    influence_score := influence
    engagement_quality := engagement }

/-- Read view of the persisted graph consumed by the ranker:
`x_connections.mutual_ids` rows and `x_profiles` rows. -/
structure GraphStore where
  conns : String → Option (List String)
  profiles : String → Option XProfileRow

/-- Bridge discovery, steps 1-3 of `analyze_influence_pathways`
(influence_pathways.py:144-175).  Python materialises the stored
`mutual_ids` arrays as sets; here a set is a duplicate-free list, with
`dedup` standing for `set(...)` (the `[:100]` sample of the fallback
takes the first 100 of that determinised order). -/
def find_bridges (store : GraphStore) (x_user_id target_user_id : String) :
    Except String (List String) :=
  match store.conns x_user_id with
  | none => .error "No connections found for user"
  | some yourMutualIds =>
    let your_1st_degree := yourMutualIds.dedup
    match store.conns target_user_id with
    | some targetMutualIds =>
      let mutual_bridges := your_1st_degree.filter (fun b => decide (b ∈ targetMutualIds))
      if mutual_bridges.isEmpty then
        .error "No mutual connections found between you and target"
      else .ok mutual_bridges
    | none =>
      let bridges := (your_1st_degree.take 100).filter (fun b =>
        match store.conns b with
        | some their_connections => decide (target_user_id ∈ their_connections)
        | none => false)
      if bridges.isEmpty then .error "No path found to target user"
      else .ok bridges

/-- Descending comparison on `overall_score`, the key of
`scored_bridges.sort(key=lambda x: x.overall_score, reverse=True)`. -/
def overallGe (a b : BridgeScore) : Prop := b.overall_score ≤ a.overall_score

instance : DecidableRel overallGe := fun a b =>
  inferInstanceAs (Decidable (b.overall_score ≤ a.overall_score))

instance : IsTotal BridgeScore overallGe :=
  ⟨fun a b => le_total b.overall_score a.overall_score⟩

instance : IsTrans BridgeScore overallGe :=
  ⟨fun _ _ _ hab hbc => le_trans hbc hab⟩

/-- `analyze_influence_pathways` (influence_pathways.py:126-293): find
bridges, load profiles, score each bridge whose profile row exists,
and sort descending by `overall_score` (Python's stable sort is
insertion sort here).  Errors model the route's HTTP 404s. -/
def analyze_influence_pathways (log10 sqrt : ℚ → ℚ) (store : GraphStore)
    (x_user_id target_user_id : String) : Except String (List BridgeScore) :=
  match find_bridges store x_user_id target_user_id with
  | .error e => .error e
  | .ok mutual_bridges =>
    let all_ids := mutual_bridges ++ [x_user_id, target_user_id]
    if (all_ids.filterMap store.profiles).isEmpty then .error "Profile data not found"
    else
      match store.profiles target_user_id with
      | none => .error "Target profile not found"
      | some target_profile =>
        let scored_bridges := mutual_bridges.filterMap (fun bridge_id =>
          (store.profiles bridge_id).map
            (score_bridge log10 sqrt target_profile.embedding))
        .ok (scored_bridges.insertionSort overallGe)

/-! ## Twitter client page walking (services/twitter_client.py)

A paginated endpoint is a function from (requested page size, optional
pagination token) to (items of the page, optional next token); tokens
are modelled as `Nat`.  The loops of the source have no termination
guarantee (the provider could hand out tokens forever), so the
embedded loops carry an explicit `fuel` bound; theorems about full
walks are stated for runs in which the token chain ends within the
fuel. -/

/-- A following/followers listing endpoint. -/
def FollowEndpoint : Type := Nat → Option Nat → List XProfileCreate × Option Nat

/-- `get_following` (twitter_client.py:154-175): one page, page size
clamped by `min(max_results, 1000)`. -/
def get_following (api : FollowEndpoint) (max_results : Nat) (pagination_token : Option Nat) :
    List XProfileCreate × Option Nat :=
  api (min max_results 1000) pagination_token

/-- `get_followers` (twitter_client.py:177-198); same shape as
`get_following` over the followers endpoint. -/
def get_followers (api : FollowEndpoint) (max_results : Nat) (pagination_token : Option Nat) :
    List XProfileCreate × Option Nat :=
  api (min max_results 1000) pagination_token

/-- The `while True` page walk of `get_all_following`
(twitter_client.py:205-216): default page size 10, follow the
`next_token` until it is absent, concatenating the pages. -/
def get_all_following_loop (api : FollowEndpoint) : Option Nat → Nat → List XProfileCreate
  | _, 0 => []
  | tok, fuel + 1 =>
    let result := get_following api 10 tok
    match result.2 with
    | none => result.1
    | some t => result.1 ++ get_all_following_loop api (some t) fuel

/-- `get_all_following` (twitter_client.py:200-216).  When
`max_results` is truthy (present and nonzero) the source performs a
single `get_following` call and returns that one page; only when it is
falsy does it walk all pages. -/
def get_all_following (api : FollowEndpoint) (max_results : Option Nat) (fuel : Nat) :
    List XProfileCreate :=
  match max_results with
  | some m => if m ≠ 0 then (get_following api m none).1 else get_all_following_loop api none fuel
  | none => get_all_following_loop api none fuel

/-- The page walk of `get_all_followers` (twitter_client.py:223-234). -/
def get_all_followers_loop (api : FollowEndpoint) : Option Nat → Nat → List XProfileCreate
  | _, 0 => []
  | tok, fuel + 1 =>
    let result := get_followers api 10 tok
    match result.2 with
    | none => result.1
    | some t => result.1 ++ get_all_followers_loop api (some t) fuel

/-- `get_all_followers` (twitter_client.py:218-234). -/
def get_all_followers (api : FollowEndpoint) (max_results : Option Nat) (fuel : Nat) :
    List XProfileCreate :=
  match max_results with
  | some m => if m ≠ 0 then (get_followers api m none).1 else get_all_followers_loop api none fuel
  | none => get_all_followers_loop api none fuel

/-- Whether `count` items already satisfy an optional cap. -/
def capReached : Option Nat → Nat → Bool
  | none, _ => false
  | some m, c => decide (m ≤ c)

/-- The page-walk contract stated by the spec for
`fetchAllFollowing`/`fetchAllFollowers`: "loop over pages following
`nextPageToken` until exhausted or `maxResults` reached; returns the
concatenated list".  Written from the spec's words for comparison with
the code's `get_all_following`. -/
def all_pages_spec_loop (api : FollowEndpoint) (cap : Option Nat) :
    Nat → Option Nat → Nat → List XProfileCreate
  | _, _, 0 => []
  | collected, tok, fuel + 1 =>
    let result := api 10 tok
    match result.2 with
    | none => result.1
    | some t =>
      let collected2 := collected + result.1.length
      if capReached cap collected2 then result.1
      else result.1 ++ all_pages_spec_loop api cap collected2 (some t) fuel

/-- Spec-text behaviour of `fetchAllFollowing(userId, maxResults?)`. -/
def get_all_following_specification (api : FollowEndpoint) (max_results : Option Nat)
    (fuel : Nat) : List XProfileCreate :=
  all_pages_spec_loop api max_results 0 none fuel

/-- A tweet listing endpoint; `Except` models request exceptions
(`_request` re-raises after its retries are exhausted). -/
def TweetEndpoint : Type := Nat → Option Nat → Except String (List XTweetCreate × Option Nat)

/-- `get_user_tweets` (twitter_client.py:236-258): one page, page size
clamped by `min(max_results, 100)`. -/
def get_user_tweets (api : TweetEndpoint) (max_results : Nat) (pagination_token : Option Nat) :
    Except String (List XTweetCreate × Option Nat) :=
  api (min max_results 100) pagination_token

/-- `get_user_tweets_batch` (twitter_client.py:260-274): a single
`get_user_tweets` call with `max_results = count`, with every
exception swallowed into an empty list. -/
def get_user_tweets_batch (api : TweetEndpoint) (count : Nat) : List XTweetCreate :=
  match get_user_tweets api count none with
  | .ok result => result.1
  | .error _ => []

/-- `get_user_posts_text` (twitter_client.py:276-279): just the text
content of the batch. -/
def get_user_posts_text (api : TweetEndpoint) (count : Nat) : List String :=
  (get_user_tweets_batch api count).map (·.content)

/-- The spec's contract for `fetchRecentPosts(userId, count)`:
"paginate the post-listing endpoint until `count` posts collected or
pages exhausted; return only text content".  Written from the spec's
words for comparison with the code's `get_user_posts_text`.  A page
fetch failure ends the walk. -/
def recent_posts_spec_loop (api : TweetEndpoint) (count : Nat) :
    Nat → Option Nat → Nat → List XTweetCreate
  | _, _, 0 => []
  | collected, tok, fuel + 1 =>
    match api (min count 100) tok with
    | .error _ => []
    | .ok result =>
      match result.2 with
      | none => result.1
      | some t =>
        let collected2 := collected + result.1.length
        if count ≤ collected2 then result.1
        else result.1 ++ recent_posts_spec_loop api count collected2 (some t) fuel

/-- Spec-text behaviour of `fetchRecentPosts(userId, count)`. -/
def fetch_recent_posts_specification (api : TweetEndpoint) (count fuel : Nat) : List String :=
  (recent_posts_spec_loop api count 0 none fuel).map (·.content)

/-! ## Scraper persistence (services/scraper.py) and the
summary/embedding write paths -/

/-- The persisted tables the checked writes touch: `x_profiles` rows
and `x_connections` rows (`mutual_ids` array plus `discovered_at`). -/
structure NexusDb where
  profiles : String → Option XProfileRow
  conns : String → Option (List String × ℚ)

/-- A database with no rows. -/
def emptyDb : NexusDb := { profiles := fun _ => none, conns := fun _ => none }

/-- The per-profile `INSERT ... ON CONFLICT (x_user_id) DO UPDATE` of
`add_to_db` (scraper.py:136-162): a fresh insert stores the parsed
fields with null summary/embedding; on conflict only username, name,
bio, the two follow counts and `last_updated_at` are updated. -/
def upsert_profile (db : NexusDb) (p : XProfileCreate) (now : ℚ) : NexusDb :=
  { db with profiles := fun uid =>
      if uid = p.x_user_id then
        match db.profiles uid with
        | none => some
          { x_user_id := p.x_user_id
            username := p.username
            name := p.name
            bio := p.bio
            location := p.location
            profile_image_url := p.profile_image_url
            verified := p.verified
            followers_count := p.followers_count
            following_count := p.following_count
            tweet_count := p.tweet_count
            listed_count := p.listed_count
            is_protected := p.is_protected
            last_updated_at := now
            summary := none
            embedding := none }
        | some old => some
          { old with
            username := p.username
            name := p.name
            bio := p.bio
            followers_count := p.followers_count
            following_count := p.following_count
            last_updated_at := now }
      else db.profiles uid }

/-- `add_to_db` (scraper.py:129-189): upsert every mutual profile,
then upsert the user's ConnectionSet row, whose `ON CONFLICT DO
UPDATE` overwrites `mutual_ids` with the freshly computed list. -/
def add_to_db (db : NexusDb) (x_user_id : String) (mutuals : List XProfileCreate) (now : ℚ) :
    NexusDb :=
  let db1 := mutuals.foldl (fun d p => upsert_profile d p now) db
  let mutual_user_ids := mutuals.map (·.x_user_id)
  { db1 with conns := fun uid =>
      if uid = x_user_id then some (mutual_user_ids, now) else db1.conns uid }

/-- The write operations of the repository that touch an `x_profiles`
row's (summary, embedding) pair, plus the profile upsert (which leaves
the pair alone on conflict and inserts it as (null, null)):

* `upsert` — `add_to_db` in scraper.py (and the identical upserts in
  routes/scrape.py, routes/network.py, routes/followers.py,
  routes/user.py);
* `clearSummaryEmbedding` — the batch
  `update({summary: None, embedding: None})` of routes/generate_rag.py
  (lines 104-109 and 229-236);
* `setSummaryEmbedding` — the joint write of `process_single_profile`
  (generate_rag.py:126-129) and of
  `EmbeddingsService.generate_embeddings_for_profiles`
  (embeddings.py:203-209);
* `regenerateEmbedding` — `regenerate_embedding` in
  routes/embeddings.py (lines 141-148), which assigns
  `profile.embedding` only. -/
inductive ProfileWrite where
  | upsert (p : XProfileCreate) (now : ℚ)
  | clearSummaryEmbedding (ids : List String)
  | setSummaryEmbedding (uid : String) (s : String) (e : List ℚ)
  | regenerateEmbedding (uid : String) (e : List ℚ)

/-- Effect of one write on the database. -/
def applyWrite (db : NexusDb) : ProfileWrite → NexusDb
  | .upsert p now => upsert_profile db p now
  | .clearSummaryEmbedding ids =>
    { db with profiles := fun uid =>
        if uid ∈ ids then
          (db.profiles uid).map (fun r => { r with summary := none, embedding := none })
        else db.profiles uid }
  | .setSummaryEmbedding target s e =>
    { db with profiles := fun uid =>
        if uid = target then
          (db.profiles uid).map (fun r => { r with summary := some s, embedding := some e })
        else db.profiles uid }
  | .regenerateEmbedding target e =>
    { db with profiles := fun uid =>
        if uid = target then
          (db.profiles uid).map (fun r => { r with embedding := some e })
        else db.profiles uid }

/-- The claimed invariant: no stored profile has a non-null embedding
together with a null summary. -/
def SummaryEmbeddingInv (db : NexusDb) : Prop :=
  ∀ uid r, db.profiles uid = some r → r.embedding ≠ none → r.summary ≠ none

/-- States reachable from the empty database through the pipeline
write paths, i.e. every profile write of the repository except the
`regenerate_embedding` route. -/
inductive PipelineReachable : NexusDb → Prop where
  | init : PipelineReachable emptyDb
  | step (db : NexusDb) (w : ProfileWrite) (hdb : PipelineReachable db)
      (hw : ∀ uid e, w ≠ .regenerateEmbedding uid e) : PipelineReachable (applyWrite db w)

/-! ## Token bucket rate limiter (utils/rate_limiter.py) -/

/-- Mutable state of `TokenBucketRateLimiter`. -/
structure BucketState where
  rate : ℚ
  capacity : ℚ
  tokens : ℚ
  last_update : ℚ
deriving DecidableEq

/-- The refill step of `acquire` (rate_limiter.py:57-60). -/
def refillTokens (st : BucketState) (now : ℚ) : ℚ :=
  min st.capacity (st.tokens + (now - st.last_update) * st.rate)

/-- `acquire` (rate_limiter.py:47-80).  `now` is `time.time()` at
entry; `afterWait` is `time.time()` after the `sleep` of the waiting
branch (the computed `wait_time + jitter` only determines how long the
sleep lasts, not the resulting token count). -/
def acquire (st : BucketState) (now afterWait tokens : ℚ) : BucketState :=
  if refillTokens st now < tokens then
    { st with tokens := 0, last_update := afterWait }
  else
    { st with tokens := refillTokens st now - tokens, last_update := now }

/-! ## Concrete sample inputs used by witnesses and counterexamples -/

/-- A minimal parsed profile with the given id. -/
def sampleProfileCreate (uid : String) : XProfileCreate :=
  { x_user_id := uid, username := uid, name := none, bio := none, location := none
    profile_image_url := none, verified := false, followers_count := 0
    following_count := 0, tweet_count := 0, listed_count := 0, is_protected := false
    account_created_at := none }

/-- A minimal stored profile row with the given id. -/
def sampleRow (uid : String) : XProfileRow :=
  { x_user_id := uid, username := uid, name := none, bio := none, location := none
    profile_image_url := none, verified := false, followers_count := 0
    following_count := 0, tweet_count := 0, listed_count := 0, is_protected := false
    last_updated_at := 0, summary := none, embedding := none }

/-- A following endpoint serving two one-profile pages; it ignores the
requested page size, so a single request cannot exhaust it. -/
def followApiTwoPages : FollowEndpoint := fun _ tok =>
  match tok with
  | none => ([sampleProfileCreate "u1"], some 1)
  | some _ => ([sampleProfileCreate "u2"], none)

/-- A tweet endpoint serving two one-tweet pages. -/
def tweetApiTwoPages : TweetEndpoint := fun _ tok =>
  match tok with
  | none => .ok ([{ tweet_id := "t1", author_id := "a", content := "hello" }], some 1)
  | some _ => .ok ([{ tweet_id := "t2", author_id := "a", content := "world" }], none)

/-- A tweet endpoint whose every request raises. -/
def tweetApiFailing : TweetEndpoint := fun _ _ => .error "timeout"

/-- A tweet endpoint for a user with zero posts. -/
def tweetApiNoPosts : TweetEndpoint := fun _ _ => .ok ([], none)

/-- A tweet endpoint serving one single-tweet final page. -/
def tweetApiOnePage : TweetEndpoint := fun _ _ =>
  .ok ([{ tweet_id := "t1", author_id := "a", content := "hello" }], none)

/-- A graph store in which `src` and `tgt` both have ConnectionSets
sharing the single bridge `b1`, whose profile row is stored. -/
def storeShared : GraphStore :=
  { conns := fun uid =>
      if uid = "src" then some ["b1", "b2"]
      else if uid = "tgt" then some ["b1", "b3"] else none
    profiles := fun uid =>
      if uid = "b1" then some (sampleRow "b1")
      else if uid = "tgt" then some (sampleRow "tgt") else none }

/-- A graph store exercising the 2nd-degree fallback: `tgt` has no
ConnectionSet, and of `src`'s 1st-degree ids only `b` reaches `tgt`. -/
def storeFallback : GraphStore :=
  { conns := fun uid =>
      if uid = "src" then some ["b", "c"]
      else if uid = "b" then some ["tgt", "z"]
      else if uid = "c" then some ["z"] else none
    profiles := fun _ => none }

/-- Database state obtained by inserting a fresh profile and then
hitting the `regenerate_embedding` route for it. -/
def dbAfterRegenerate : NexusDb :=
  applyWrite (applyWrite emptyDb (.upsert (sampleProfileCreate "u1") 0))
    (.regenerateEmbedding "u1" [1])

/-- Database state obtained through pipeline writes only: insert a
fresh profile, then the joint summary/embedding write. -/
def dbAfterPipeline : NexusDb :=
  applyWrite (applyWrite emptyDb (.upsert (sampleProfileCreate "u1") 0))
    (.setSummaryEmbedding "u1" "a summary" [1])

/-- The bridge score `analyze_influence_pathways` computes for `b1` of
`storeShared` under trivial `log10`/`sqrt` stand-ins. -/
def bW : BridgeScore := score_bridge (fun _ => 0) (fun _ => 0) none (sampleRow "b1")

/-- A rational stand-in for the square root that is exact at the
points where the witnesses evaluate it (`sumSq [3,4] = 25`,
`sumSq [5,0] = 25`, `sumSq [0,0] = 0`). -/
def sqrtAt25 : ℚ → ℚ := fun x => if x = 25 then 5 else 0

/-- A rational stand-in for the square root that is exact at `1`, the
only point where the C7 counterexample evaluates it
(`sumSq [1] = sumSq [-1] = 1`). -/
def sqrtOne : ℚ → ℚ := fun _ => 1

/-! ## Helper lemmas -/

/-- The default-page-size code walk of `get_all_following` coincides
with the spec's capless page walk. -/
theorem get_all_following_loop_eq_spec (api : FollowEndpoint) :
    ∀ (fuel : Nat) (tok : Option Nat) (collected : Nat),
      get_all_following_loop api tok fuel = all_pages_spec_loop api none collected tok fuel := by
  intro fuel
  induction fuel with
  | zero => intro tok collected; rfl
  | succ n ih =>
    intro tok collected
    simp only [get_all_following_loop, all_pages_spec_loop, get_following]
    have h10 : min 10 1000 = 10 := by norm_num
    rw [h10]
    rcases (api 10 tok).2 with _ | t
    · rfl
    · simp only [capReached]
      rw [if_neg (by simp)]
      rw [ih]

/-- Same statement for the followers walk. -/
theorem get_all_followers_loop_eq_spec (api : FollowEndpoint) :
    ∀ (fuel : Nat) (tok : Option Nat) (collected : Nat),
      get_all_followers_loop api tok fuel = all_pages_spec_loop api none collected tok fuel := by
  intro fuel
  induction fuel with
  | zero => intro tok collected; rfl
  | succ n ih =>
    intro tok collected
    simp only [get_all_followers_loop, all_pages_spec_loop, get_followers]
    have h10 : min 10 1000 = 10 := by norm_num
    rw [h10]
    rcases (api 10 tok).2 with _ | t
    · rfl
    · simp only [capReached]
      rw [if_neg (by simp)]
      rw [ih]

/-! ## Claim theorems -/

/-- C3.  The claim that `get_all_following`/`get_all_followers` always
page-walk "until pages are exhausted or maxResults items have been
collected" fails: with a truthy `max_results` the code performs exactly
one page request and returns that page, even though more pages remain
and fewer than `max_results` items were collected.  Here the endpoint
holds two pages of one profile each; with `max_results = 5` the code
returns one profile while the spec's walk returns both. -/
theorem C3_single_page_counterexample :
    get_all_following followApiTwoPages (some 5) 10 = [sampleProfileCreate "u1"]
    ∧ get_all_following_specification followApiTwoPages (some 5) 10 =
        [sampleProfileCreate "u1", sampleProfileCreate "u2"]
    ∧ get_all_following followApiTwoPages (some 5) 10 ≠
        get_all_following_specification followApiTwoPages (some 5) 10
    ∧ get_all_followers followApiTwoPages (some 5) 10 ≠
        get_all_following_specification followApiTwoPages (some 5) 10 := by
  refine ⟨rfl, rfl, ?_, ?_⟩ <;> decide

/-- C3 (amended).  `get_all_following(userId, maxResults)` and
`get_all_followers(userId, maxResults)`: when `maxResults` is absent
(or zero, which Python treats as falsy) the functions loop over pages
following the next-page token until exhaustion and return the
concatenation of all fetched pages; when `maxResults` is truthy they
make exactly one page request of size `min(maxResults, 1000)` and
return that single page without further pagination. -/
theorem C3_page_walk_amended (api : FollowEndpoint) (fuel : Nat) :
    (∀ m : Nat, m ≠ 0 →
      get_all_following api (some m) fuel = (get_following api m none).1
      ∧ get_all_followers api (some m) fuel = (get_followers api m none).1)
    ∧ get_all_following api none fuel = get_all_following_specification api none fuel
    ∧ get_all_followers api none fuel = get_all_following_specification api none fuel
    ∧ get_all_following api (some 0) fuel = get_all_following_specification api none fuel := by
  refine ⟨fun m hm => ⟨?_, ?_⟩, ?_, ?_, ?_⟩
  · simp [get_all_following, hm]
  · simp [get_all_followers, hm]
  · exact get_all_following_loop_eq_spec api fuel none 0
  · exact get_all_followers_loop_eq_spec api fuel none 0
  · simpa [get_all_following] using get_all_following_loop_eq_spec api fuel none 0

/-- C3 witness: the amended statement applied to the concrete
two-page endpoint with `maxResults = 7`. -/
theorem C3_page_walk_amended_witness :
    get_all_following followApiTwoPages (some 7) 3 =
      (get_following followApiTwoPages 7 none).1
    ∧ get_all_following followApiTwoPages none 3 =
      get_all_following_specification followApiTwoPages none 3 :=
  ⟨((C3_page_walk_amended followApiTwoPages 3).1 7 (by decide)).1,
    (C3_page_walk_amended followApiTwoPages 3).2.1⟩

/-- C4.  The claim that `get_user_posts_text(userId, count)` paginates
"until count posts collected or pages exhausted" fails: the code
performs exactly one page request (of size `min(count, 100)`).  Here
the endpoint holds two pages of one tweet each; with `count = 150` the
code returns one text while the spec's paginating walk returns both. -/
theorem C4_single_page_counterexample :
    get_user_posts_text tweetApiTwoPages 150 = ["hello"]
    ∧ fetch_recent_posts_specification tweetApiTwoPages 150 10 = ["hello", "world"]
    ∧ get_user_posts_text tweetApiTwoPages 150 ≠
        fetch_recent_posts_specification tweetApiTwoPages 150 10 := by
  refine ⟨rfl, rfl, ?_⟩; decide

/-- C4 (amended).  `get_user_posts_text(userId, count)` makes a single
page request of size `min(count, 100)` and returns only the text
content of that one page's tweets (not full tweet objects); it does
not paginate further.  It agrees with the spec's paginating walk
exactly when that first page is final (carries no next token). -/
theorem C4_posts_text_amended (api : TweetEndpoint) (count : Nat) :
    get_user_posts_text api count = (get_user_tweets_batch api count).map (·.content)
    ∧ get_user_tweets_batch api count =
        (match api (min count 100) none with
          | .ok result => result.1
          | .error _ => [])
    ∧ ∀ l : List XTweetCreate, api (min count 100) none = .ok (l, none) →
        ∀ fuel : Nat, 0 < fuel →
          get_user_posts_text api count = fetch_recent_posts_specification api count fuel := by
  refine ⟨rfl, rfl, fun l hl fuel hfuel => ?_⟩
  cases fuel with
  | zero => exact absurd hfuel (by simp)
  | succ n =>
    simp only [get_user_posts_text, get_user_tweets_batch, get_user_tweets,
      fetch_recent_posts_specification, recent_posts_spec_loop, hl]

/-- C4 witness: the amended statement applied to a concrete one-page
endpoint with `count = 50`. -/
theorem C4_posts_text_amended_witness :
    get_user_posts_text tweetApiOnePage 50 =
      fetch_recent_posts_specification tweetApiOnePage 50 4 :=
  (C4_posts_text_amended tweetApiOnePage 50).2.2
    [{ tweet_id := "t1", author_id := "a", content := "hello" }] rfl 4 (by decide)

/-- C5.  Each `add_to_db` write of a user's ConnectionSet fully
replaces the stored `mutual_ids` with the freshly computed id list,
whatever was stored before — in particular, crawling the same user
twice leaves exactly the second crawl's ids, with no leftover from the
first. -/
theorem C5_connection_set_replaced (db : NexusDb) (x_user_id : String)
    (m1 m2 : List XProfileCreate) (now1 now2 : ℚ) :
    (add_to_db db x_user_id m1 now1).conns x_user_id = some (m1.map (·.x_user_id), now1)
    ∧ (add_to_db (add_to_db db x_user_id m1 now1) x_user_id m2 now2).conns x_user_id =
        some (m2.map (·.x_user_id), now2) := by
  constructor <;> simp [add_to_db]

/-- C9.  When the underlying page fetch raises, `get_user_tweets_batch`
swallows the exception and returns the empty list, so
`get_user_posts_text` returns `[]` — the same output it produces for a
user whose fetch succeeds with zero posts; callers cannot tell the two
apart. -/
theorem C9_fetch_error_swallowed (api : TweetEndpoint) (count : Nat) (e : String)
    (herr : api (min count 100) none = .error e) :
    get_user_tweets_batch api count = []
    ∧ get_user_posts_text api count = []
    ∧ ∀ api0 : TweetEndpoint, api0 (min count 100) none = .ok ([], none) →
        get_user_posts_text api0 count = [] := by
  refine ⟨?_, ?_, fun api0 h0 => ?_⟩
  · simp [get_user_tweets_batch, get_user_tweets, herr]
  · simp [get_user_posts_text, get_user_tweets_batch, get_user_tweets, herr]
  · simp [get_user_posts_text, get_user_tweets_batch, get_user_tweets, h0]

/-- C9 witness: a failing endpoint and a zero-post endpoint at
`count = 50` produce the same empty output. -/
theorem C9_fetch_error_swallowed_witness :
    get_user_tweets_batch tweetApiFailing 50 = []
    ∧ get_user_posts_text tweetApiNoPosts 50 = [] :=
  ⟨(C9_fetch_error_swallowed tweetApiFailing 50 "timeout" rfl).1,
    (C9_fetch_error_swallowed tweetApiFailing 50 "timeout" rfl).2.2 tweetApiNoPosts rfl⟩

/-- C10.  For a non-negative requested cost, one `acquire` step keeps
the token count inside `[0, capacity]`: the refill caps at capacity,
the immediate branch debits only when enough tokens are available
(leaving `refill - n ≥ 0`), and the waiting branch sets the count to
exactly `0`; the function is total, so the call returns (never raises)
even when `n` exceeds the capacity. -/
theorem C10_token_bucket_bounds (st : BucketState) (now afterWait n : ℚ)
    (htok0 : 0 ≤ st.tokens) (htokc : st.tokens ≤ st.capacity)
    (hlast : st.last_update ≤ now) (hrate : 0 ≤ st.rate) (hn : 0 ≤ n) :
    0 ≤ (acquire st now afterWait n).tokens
    ∧ (acquire st now afterWait n).tokens ≤ (acquire st now afterWait n).capacity
    ∧ (acquire st now afterWait n).capacity = st.capacity
    ∧ refillTokens st now ≤ st.capacity
    ∧ (refillTokens st now < n → (acquire st now afterWait n).tokens = 0)
    ∧ (n ≤ refillTokens st now →
        (acquire st now afterWait n).tokens = refillTokens st now - n) := by
  have hcap : (0 : ℚ) ≤ st.capacity := le_trans htok0 htokc
  have hfill0 : 0 ≤ refillTokens st now := by
    have : 0 ≤ st.tokens + (now - st.last_update) * st.rate :=
      add_nonneg htok0 (mul_nonneg (by linarith) hrate)
    exact le_min hcap this
  have hfillc : refillTokens st now ≤ st.capacity := min_le_left _ _
  unfold acquire
  split_ifs with h
  · exact ⟨le_refl 0, hcap, rfl, hfillc, fun _ => rfl, fun hge => absurd h (not_lt.mpr hge)⟩
  · push_neg at h
    refine ⟨?_, ?_, rfl, hfillc, fun hlt => absurd hlt (not_lt.mpr h), fun _ => rfl⟩
    · show 0 ≤ refillTokens st now - n
      linarith
    · show refillTokens st now - n ≤ st.capacity
      linarith

/-- C10 witness: an over-capacity request (`n = 5 > capacity = 2`)
completes and leaves zero tokens. -/
theorem C10_token_bucket_bounds_witness :
    0 ≤ (acquire ⟨1, 2, 2, 0⟩ 0 3 5).tokens
    ∧ (acquire ⟨1, 2, 2, 0⟩ 0 3 5).tokens ≤ (acquire ⟨1, 2, 2, 0⟩ 0 3 5).capacity :=
  ⟨(C10_token_bucket_bounds ⟨1, 2, 2, 0⟩ 0 3 5 (by norm_num) (by norm_num) (by norm_num)
      (by norm_num) (by norm_num)).1,
    (C10_token_bucket_bounds ⟨1, 2, 2, 0⟩ 0 3 5 (by norm_num) (by norm_num) (by norm_num)
      (by norm_num) (by norm_num)).2.1⟩

/-- C6.  The claim that every write path touching a profile's
(summary, embedding) pair sets or clears both together fails: the
`regenerate_embedding` route (routes/embeddings.py:122-148) assigns
`profile.embedding` without touching `summary`.  Hitting it on a
freshly inserted profile (whose summary is null) yields a stored row
with a non-null embedding and a null summary. -/
theorem C6_regenerate_route_counterexample :
    (dbAfterRegenerate.profiles "u1").map XProfileRow.embedding = some (some [1])
    ∧ (dbAfterRegenerate.profiles "u1").map XProfileRow.summary = some none
    ∧ ¬ SummaryEmbeddingInv dbAfterRegenerate := by
  refine ⟨rfl, rfl, fun hinv => ?_⟩
  exact hinv "u1" { sampleRow "u1" with embedding := some [1] } rfl (by simp) rfl

/-- C6 (amended).  Every profile write path of the crawl/RAG pipeline
— the profile upsert (which inserts the pair as (null, null) and never
touches it on conflict), the batch clear of both columns, and the
joint summary+embedding write — preserves the invariant that no
stored profile has a non-null embedding with a null summary; only the
standalone `regenerate_embedding` route, excluded here, can break it. -/
theorem C6_pipeline_writes_preserve_invariant (db : NexusDb)
    (h : PipelineReachable db) : SummaryEmbeddingInv db := by
  induction h with
  | init => intro uid r hr _; simp [emptyDb] at hr
  | step db w hdb hw ih =>
    cases w with
    | upsert p now =>
      intro uid r hr hne
      simp only [applyWrite, upsert_profile] at hr
      by_cases huid : uid = p.x_user_id
      · rw [if_pos huid] at hr
        cases hold : db.profiles uid with
        | none => rw [hold] at hr; injection hr with hr; subst hr; simp at hne
        | some old =>
          rw [hold] at hr; injection hr with hr; subst hr
          exact ih uid old hold (by simpa using hne)
      · rw [if_neg huid] at hr; exact ih uid r hr hne
    | clearSummaryEmbedding ids =>
      intro uid r hr hne
      simp only [applyWrite] at hr
      by_cases hm : uid ∈ ids
      · rw [if_pos hm] at hr
        cases hold : db.profiles uid with
        | none => rw [hold] at hr; cases hr
        | some old =>
          rw [hold] at hr
          simp only [Option.map_some'] at hr
          injection hr with hr; subst hr
          simp at hne
      · rw [if_neg hm] at hr; exact ih uid r hr hne
    | setSummaryEmbedding target s e =>
      intro uid r hr _
      simp only [applyWrite] at hr
      by_cases huid : uid = target
      · rw [if_pos huid] at hr
        cases hold : db.profiles uid with
        | none => rw [hold] at hr; cases hr
        | some old =>
          rw [hold] at hr
          simp only [Option.map_some'] at hr
          injection hr with hr; subst hr
          simp
      · rw [if_neg huid] at hr; exact ih uid r hr (by assumption)
    | regenerateEmbedding target e => exact absurd rfl (hw target e)

/-- C6 witness: the invariant holds of the concrete state reached by a
fresh insert followed by the joint summary+embedding write. -/
theorem C6_pipeline_writes_preserve_invariant_witness :
    SummaryEmbeddingInv dbAfterPipeline :=
  C6_pipeline_writes_preserve_invariant dbAfterPipeline
    (PipelineReachable.step _ _
      (PipelineReachable.step _ _ PipelineReachable.init
        (fun _ _ h => ProfileWrite.noConfusion h))
      (fun _ _ h => ProfileWrite.noConfusion h))

/-- The fallback filter predicate of `find_bridges` holds of `x`
exactly when `x`'s stored ConnectionSet exists and contains the
target. -/
theorem conns_filter_pred_iff (store : GraphStore) (tgt x : String) :
    ((match store.conns x with
      | some their_connections => decide (tgt ∈ their_connections)
      | none => false) = true)
      ↔ ∃ theirIds, store.conns x = some theirIds ∧ tgt ∈ theirIds := by
  cases h : store.conns x <;> simp [h]

/-- C2.  Bridge discovery in `analyze_influence_pathways`: it fails
with NotFound when the source's ConnectionSet is absent; with the
target's ConnectionSet present the returned bridges are exactly the
intersection of the two mutual-id sets; with it absent they are
exactly those of up to 100 sampled source 1st-degree ids whose own
ConnectionSet contains the target; and in either branch it fails with
NotFound precisely when that bridge set is empty. -/
theorem C2_bridge_discovery (store : GraphStore) (src tgt : String) :
    (store.conns src = none →
      find_bridges store src tgt = .error "No connections found for user")
    ∧ (∀ yourIds tgtIds, store.conns src = some yourIds → store.conns tgt = some tgtIds →
        (∀ l, find_bridges store src tgt = .ok l →
          ∀ x, x ∈ l ↔ x ∈ yourIds ∧ x ∈ tgtIds)
        ∧ ((∃ e, find_bridges store src tgt = .error e) ↔
            ∀ x, ¬(x ∈ yourIds ∧ x ∈ tgtIds)))
    ∧ (∀ yourIds, store.conns src = some yourIds → store.conns tgt = none →
        (∀ l, find_bridges store src tgt = .ok l →
          ∀ x, x ∈ l ↔ x ∈ yourIds.dedup.take 100 ∧
            ∃ theirIds, store.conns x = some theirIds ∧ tgt ∈ theirIds)
        ∧ ((∃ e, find_bridges store src tgt = .error e) ↔
            ∀ x ∈ yourIds.dedup.take 100,
              ¬∃ theirIds, store.conns x = some theirIds ∧ tgt ∈ theirIds)) := by
  refine ⟨fun h => by simp [find_bridges, h], ?_, ?_⟩
  · intro yourIds tgtIds hs ht
    simp only [find_bridges, hs, ht]
    constructor
    · intro l hl x
      by_cases he : (yourIds.dedup.filter (fun b => decide (b ∈ tgtIds))).isEmpty
      · rw [if_pos he] at hl; cases hl
      · rw [if_neg he] at hl
        injection hl with hl; subst hl
        simp [List.mem_filter, List.mem_dedup]
    · constructor
      · rintro ⟨e, he⟩ x ⟨hx1, hx2⟩
        by_cases hemp : (yourIds.dedup.filter (fun b => decide (b ∈ tgtIds))).isEmpty
        · rw [List.isEmpty_iff, List.filter_eq_nil_iff] at hemp
          exact hemp x (List.mem_dedup.mpr hx1) (by simpa using hx2)
        · rw [if_neg hemp] at he; cases he
      · intro hall
        have hemp : (yourIds.dedup.filter (fun b => decide (b ∈ tgtIds))).isEmpty = true := by
          rw [List.isEmpty_iff, List.filter_eq_nil_iff]
          intro a ha hmem
          exact hall a ⟨List.mem_dedup.mp ha, by simpa using hmem⟩
        exact ⟨_, by rw [if_pos hemp]⟩
  · intro yourIds hs ht
    simp only [find_bridges, hs, ht]
    constructor
    · intro l hl x
      by_cases he : ((yourIds.dedup.take 100).filter (fun b =>
          match store.conns b with
          | some their_connections => decide (tgt ∈ their_connections)
          | none => false)).isEmpty
      · rw [if_pos he] at hl; cases hl
      · rw [if_neg he] at hl
        injection hl with hl; subst hl
        rw [List.mem_filter]
        exact and_congr_right' (conns_filter_pred_iff store tgt x)
    · constructor
      · rintro ⟨e, he⟩ x hx hex
        by_cases hemp : ((yourIds.dedup.take 100).filter (fun b =>
            match store.conns b with
            | some their_connections => decide (tgt ∈ their_connections)
            | none => false)).isEmpty
        · rw [List.isEmpty_iff, List.filter_eq_nil_iff] at hemp
          exact hemp x hx ((conns_filter_pred_iff store tgt x).mpr hex)
        · rw [if_neg hemp] at he; cases he
      · intro hall
        have hemp : ((yourIds.dedup.take 100).filter (fun b =>
            match store.conns b with
            | some their_connections => decide (tgt ∈ their_connections)
            | none => false)).isEmpty = true := by
          rw [List.isEmpty_iff, List.filter_eq_nil_iff]
          intro a ha hpa
          exact hall a ha ((conns_filter_pred_iff store tgt a).mp hpa)
        exact ⟨_, by rw [if_pos hemp]⟩

/-- C2 witness: in `storeFallback` the target has no ConnectionSet and
the fallback sampling finds exactly the bridge `b`. -/
theorem C2_bridge_discovery_witness :
    ("b" ∈ (["b"] : List String)) ↔
      ("b" ∈ (["b", "c"] : List String).dedup.take 100 ∧
        ∃ theirIds, storeFallback.conns "b" = some theirIds ∧ "tgt" ∈ theirIds) :=
  ((C2_bridge_discovery storeFallback "src" "tgt").2.2 ["b", "c"] rfl rfl).1 ["b"] rfl "b"

/-- C1.  Every bridge candidate returned by
`analyze_influence_pathways` carries
`overall_score = topic_alignment*0.30 + bridge_relationship*0.25 +
influence*0.20 + engagement_quality*0.15 + your_relationship*0.10` and
`success_probability = min(95, overall_score*0.85)`, and the returned
list is sorted in descending order of `overall_score`. -/
theorem C1_weighted_scoring_and_sort (log10 sqrt : ℚ → ℚ) (store : GraphStore)
    (src tgt : String) (res : List BridgeScore)
    (h : analyze_influence_pathways log10 sqrt store src tgt = .ok res) :
    (∀ b ∈ res,
      b.overall_score =
        b.topic_alignment * 0.30 + b.relationship_strength_their_side * 0.25 +
        b.influence_score * 0.20 + b.engagement_quality * 0.15 +
        b.relationship_strength_your_side * 0.10
      ∧ b.success_probability = min 95 (b.overall_score * 0.85))
    ∧ List.Pairwise overallGe res := by
  unfold analyze_influence_pathways at h
  cases hfb : find_bridges store src tgt with
  | error e => rw [hfb] at h; exact absurd h (by simp)
  | ok mutual_bridges =>
    rw [hfb] at h
    simp only [] at h
    by_cases hemp : ((mutual_bridges ++ [src, tgt]).filterMap store.profiles).isEmpty
    · rw [if_pos hemp] at h; exact absurd h (by simp)
    · rw [if_neg hemp] at h
      cases htp : store.profiles tgt with
      | none => rw [htp] at h; exact absurd h (by simp)
      | some target_profile =>
        rw [htp] at h
        simp only [Except.ok.injEq] at h
        subst h
        constructor
        · intro b hb
          rw [List.mem_insertionSort] at hb
          obtain ⟨bid, _, hmap⟩ := List.mem_filterMap.mp hb
          obtain ⟨p, _, hps⟩ := Option.map_eq_some'.mp hmap
          subst hps
          exact ⟨rfl, rfl⟩
        · exact List.sorted_insertionSort overallGe _

/-- C1 witness: on `storeShared` with trivial transcendental stand-ins
the single returned bridge satisfies the weighted formulas and the
singleton output is sorted. -/
theorem C1_weighted_scoring_and_sort_witness :
    (bW.overall_score =
      bW.topic_alignment * 0.30 + bW.relationship_strength_their_side * 0.25 +
      bW.influence_score * 0.20 + bW.engagement_quality * 0.15 +
      bW.relationship_strength_your_side * 0.10
    ∧ bW.success_probability = min 95 (bW.overall_score * 0.85))
    ∧ List.Pairwise overallGe [bW] :=
  ⟨(C1_weighted_scoring_and_sort (fun _ => 0) (fun _ => 0) storeShared "src" "tgt"
      [bW] rfl).1 bW (List.mem_singleton.mpr rfl),
    (C1_weighted_scoring_and_sort (fun _ => 0) (fun _ => 0) storeShared "src" "tgt"
      [bW] rfl).2⟩

/-- A sum of squares is non-negative. -/
theorem sumSq_nonneg (l : List ℚ) : 0 ≤ sumSq l := by
  induction l with
  | nil => simp [sumSq]
  | cons a as_ ih => simp only [sumSq]; nlinarith [mul_self_nonneg a]

/-- Cauchy-Schwarz for the list dot product. -/
theorem dotP_sq_le (v1 v2 : List ℚ) : dotP v1 v2 ^ 2 ≤ sumSq v1 * sumSq v2 := by
  induction v1 generalizing v2 with
  | nil =>
    simp only [dotP, sumSq]
    nlinarith [sumSq_nonneg v2]
  | cons a as_ ih =>
    cases v2 with
    | nil =>
      simp only [dotP, sumSq]
      nlinarith [sumSq_nonneg (a :: as_)]
    | cons b bs =>
      have h := ih bs
      have hp := sumSq_nonneg as_
      have hq := sumSq_nonneg bs
      simp only [dotP, sumSq]
      rcases eq_or_lt_of_le hq with hq0 | hqpos
      · have hd0 : dotP as_ bs = 0 := by
          have h1 : dotP as_ bs ^ 2 ≤ 0 := by nlinarith
          have h2 : 0 ≤ dotP as_ bs ^ 2 := sq_nonneg _
          have : dotP as_ bs ^ 2 = 0 := le_antisymm h1 h2
          exact pow_eq_zero_iff (by norm_num) |>.mp this
        rw [hd0, ← hq0]
        nlinarith [mul_self_nonneg a, mul_self_nonneg b, sq_nonneg (a * b)]
      · nlinarith [sq_nonneg (a * sumSq bs - b * dotP as_ bs),
          mul_nonneg (mul_self_nonneg b) (sub_nonneg.mpr h),
          mul_nonneg hq (sub_nonneg.mpr h), mul_pos hqpos hqpos]

/-- Under a sound square root at the two norms in play, the cosine
similarity lies in `[-1, 1]`. -/
theorem abs_similarity_le_one (sqrt : ℚ → ℚ) (v1 v2 : List ℚ)
    (h1 : sqrt (sumSq v1) * sqrt (sumSq v1) = sumSq v1) (h1n : 0 ≤ sqrt (sumSq v1))
    (h2 : sqrt (sumSq v2) * sqrt (sumSq v2) = sumSq v2) (h2n : 0 ≤ sqrt (sumSq v2)) :
    |calculate_embedding_similarity sqrt v1 v2| ≤ 1 := by
  unfold calculate_embedding_similarity
  split_ifs with hemp hz
  · simp
  · simp
  · push_neg at hz
    obtain ⟨hz1, hz2⟩ := hz
    have hn1 : 0 < sqrt (sumSq v1) := lt_of_le_of_ne h1n (Ne.symm hz1)
    have hn2 : 0 < sqrt (sumSq v2) := lt_of_le_of_ne h2n (Ne.symm hz2)
    have hpos : 0 < sqrt (sumSq v1) * sqrt (sumSq v2) := mul_pos hn1 hn2
    have hcs := dotP_sq_le v1 v2
    have hsq : dotP v1 v2 ^ 2 ≤ (sqrt (sumSq v1) * sqrt (sumSq v2)) ^ 2 := by
      calc dotP v1 v2 ^ 2 ≤ sumSq v1 * sumSq v2 := hcs
        _ = (sqrt (sumSq v1) * sqrt (sumSq v2)) ^ 2 := by
            rw [mul_pow, pow_two, pow_two, h1, h2]
    have habs : |dotP v1 v2| ≤ sqrt (sumSq v1) * sqrt (sumSq v2) := by
      rcases abs_cases (dotP v1 v2) with ⟨heq, _⟩ | ⟨heq, _⟩ <;> rw [heq] <;> nlinarith
    calc |dotP v1 v2 / (sqrt (sumSq v1) * sqrt (sumSq v2))|
        = |dotP v1 v2| / (sqrt (sumSq v1) * sqrt (sumSq v2)) := by
          rw [abs_div, abs_of_pos hpos]
      _ ≤ 1 := (div_le_one hpos).mpr habs

/-- C7.  The claim that `topic_alignment` lies in `[0, 100]` fails:
the code multiplies the raw cosine similarity (which ranges over
`[-1, 1]`) by 100 without rescaling, so opposed embeddings score
negative.  With one-dimensional embeddings `[1]` and `[-1]` — where
the square-root stand-in is exact, since `sumSq = 1` on both sides —
the component evaluates to `-100 < 0`. -/
theorem C7_negative_alignment_counterexample :
    sqrtOne (sumSq [(1 : ℚ)]) * sqrtOne (sumSq [(1 : ℚ)]) = sumSq [(1 : ℚ)]
    ∧ sqrtOne (sumSq [(-1 : ℚ)]) * sqrtOne (sumSq [(-1 : ℚ)]) = sumSq [(-1 : ℚ)]
    ∧ topicAlignment sqrtOne (some [1]) (some [-1]) = -100
    ∧ ¬ (0 ≤ topicAlignment sqrtOne (some [1]) (some [-1])) := by
  have ht : topicAlignment sqrtOne (some [1]) (some [-1]) = -100 := by
    norm_num [topicAlignment, embTruthy, calculate_embedding_similarity, sqrtOne, sumSq, dotP]
  refine ⟨by norm_num [sqrtOne, sumSq], by norm_num [sqrtOne, sumSq], ht, by rw [ht]; norm_num⟩

/-- C7 (amended).  For every pair of bridge and target embeddings,
`topic_alignment` equals the cosine similarity of the two vectors
times 100 and lies in the range `[-100, 100]`; when either embedding
is missing (or empty, which Python treats the same), it equals the
neutral default 50.  The square root is assumed sound at the two
norms the code takes. -/
theorem C7_topic_alignment_amended (sqrt : ℚ → ℚ) (v1 v2 : List ℚ)
    (h1 : sqrt (sumSq v1) * sqrt (sumSq v1) = sumSq v1) (h1n : 0 ≤ sqrt (sumSq v1))
    (h2 : sqrt (sumSq v2) * sqrt (sumSq v2) = sumSq v2) (h2n : 0 ≤ sqrt (sumSq v2)) :
    (∀ be te : Option (List ℚ), (embTruthy be && embTruthy te) = false →
      topicAlignment sqrt be te = 50)
    ∧ (v1 ≠ [] → v2 ≠ [] →
        topicAlignment sqrt (some v1) (some v2) =
          calculate_embedding_similarity sqrt v1 v2 * 100)
    ∧ -100 ≤ topicAlignment sqrt (some v1) (some v2)
    ∧ topicAlignment sqrt (some v1) (some v2) ≤ 100 := by
  have hbound := abs_similarity_le_one sqrt v1 v2 h1 h1n h2 h2n
  rw [abs_le] at hbound
  refine ⟨fun be te hf => by simp [topicAlignment, hf], fun h1e h2e => ?_, ?_, ?_⟩
  · simp [topicAlignment, embTruthy, List.isEmpty_iff, h1e, h2e]
  · unfold topicAlignment
    split_ifs with ht
    · simp only [Option.getD_some]
      nlinarith [hbound.1]
    · norm_num
  · unfold topicAlignment
    split_ifs with ht
    · simp only [Option.getD_some]
      nlinarith [hbound.2]
    · norm_num

/-- C7 witness: embeddings `[3,4]` and `[5,0]` (both of norm 5, where
`sqrtAt25` is exact) get `topic_alignment = 60`, inside the amended
range. -/
theorem C7_topic_alignment_amended_witness :
    topicAlignment sqrtAt25 (some [3, 4]) (some [5, 0]) =
      calculate_embedding_similarity sqrtAt25 [3, 4] [5, 0] * 100
    ∧ -100 ≤ topicAlignment sqrtAt25 (some [3, 4]) (some [5, 0])
    ∧ topicAlignment sqrtAt25 (some [3, 4]) (some [5, 0]) ≤ 100 :=
  ⟨(C7_topic_alignment_amended sqrtAt25 [3, 4] [5, 0] (by norm_num [sqrtAt25, sumSq])
      (by norm_num [sqrtAt25, sumSq]) (by norm_num [sqrtAt25, sumSq])
      (by norm_num [sqrtAt25, sumSq])).2.1 (by simp) (by simp),
    (C7_topic_alignment_amended sqrtAt25 [3, 4] [5, 0] (by norm_num [sqrtAt25, sumSq])
      (by norm_num [sqrtAt25, sumSq]) (by norm_num [sqrtAt25, sumSq])
      (by norm_num [sqrtAt25, sumSq])).2.2.1,
    (C7_topic_alignment_amended sqrtAt25 [3, 4] [5, 0] (by norm_num [sqrtAt25, sumSq])
      (by norm_num [sqrtAt25, sumSq]) (by norm_num [sqrtAt25, sumSq])
      (by norm_num [sqrtAt25, sumSq])).2.2.2⟩

/-- C8.  When either vector has zero norm (in particular when it is
empty), `calculate_embedding_similarity` returns `0.0`: the function
checks emptiness and zero norms before ever dividing, so no
divide-by-zero (and no NaN) can arise.  The square root is assumed
sound at the two sums of squares the code takes it of. -/
theorem C8_zero_norm_similarity (sqrt : ℚ → ℚ) (v1 v2 : List ℚ)
    (h1 : sqrt (sumSq v1) * sqrt (sumSq v1) = sumSq v1)
    (h2 : sqrt (sumSq v2) * sqrt (sumSq v2) = sumSq v2)
    (h0 : sumSq v1 = 0 ∨ sumSq v2 = 0) :
    calculate_embedding_similarity sqrt v1 v2 = 0 := by
  unfold calculate_embedding_similarity
  split_ifs with hemp hz
  · rfl
  · rfl
  · exfalso
    apply hz
    rcases h0 with h0 | h0
    · left
      rw [h0] at h1 ⊢
      exact mul_self_eq_zero.mp h1
    · right
      rw [h0] at h2 ⊢
      exact mul_self_eq_zero.mp h2

/-- C8 witness: the zero vector `[0,0]` against `[3,4]` (with
`sqrtAt25` exact at both norms) yields similarity `0`. -/
theorem C8_zero_norm_similarity_witness :
    calculate_embedding_similarity sqrtAt25 [0, 0] [3, 4] = 0 :=
  C8_zero_norm_similarity sqrtAt25 [0, 0] [3, 4] (by norm_num [sqrtAt25, sumSq])
    (by norm_num [sqrtAt25, sumSq]) (Or.inl (by norm_num [sumSq]))

end Nexus
